import Mathlib

/-!
Verification development for an 8086 MOV-family disassembler written in Rust.

The repository holds two drafts of the decoder:
* `src/instruction.rs` (+ `src/mode.rs`): the module draft with all four MOV
  encodings, embedded below in namespace `Instr`;
* `src/main.rs`: the standalone draft with two MOV encodings and the
  `disassemble` driver, embedded below in namespace `Main`.

Machine bits are modelled as `List Bool`, most-significant-bit first, exactly
as the Rust code views its buffer through `BitSlice<u8, Msb0>`.  A Rust
operation that can panic (out-of-range indexing or slicing, `Option::unwrap`,
`unimplemented!`) is modelled by an `Option`, `none` standing for the panic;
operations the source guards by explicit length checks are total.  Machine
integers (`u8`, `u16`) are modelled as `Nat`; the two-complement
reinterpretations `as i8` / `as i16` / `as i32` performed by the source are
modelled by explicit conversion functions returning `Int`.
-/

/-- Bits of one byte, most significant first: the view a `BitSlice<u8, Msb0>`
gives of a single buffer byte. -/
def byteBits (b : Nat) : List Bool :=
  [b.testBit 7, b.testBit 6, b.testBit 5, b.testBit 4,
   b.testBit 3, b.testBit 2, b.testBit 1, b.testBit 0]

/-- The MSB-first bit stream of a byte buffer. -/
def bytesToBits (bs : List Nat) : List Bool :=
  (bs.map byteBits).flatten

/-- Value of a bit string read most-significant-bit first. -/
def loadBitsBE (l : List Bool) : Nat :=
  l.foldl (fun acc b => 2 * acc + (if b then 1 else 0)) 0

/-- Model of Rust slice indexing `bits[i]`: `none` is the out-of-bounds panic. -/
def bitAt? (bits : List Bool) (i : Nat) : Option Bool :=
  bits[i]?

/-- Bit access below an already-established bound check (total; the source
only performs it after verifying the length). -/
def bitAt (bits : List Bool) (i : Nat) : Bool :=
  bits.getD i false

/-- Model of `&bits[lo..lo+len]`: `none` is the out-of-range slicing panic. -/
def sliceB (bits : List Bool) (lo len : Nat) : Option (List Bool) :=
  if lo + len ≤ bits.length then some ((bits.drop lo).take len) else none

/-- Value of the byte at bit offset `off` (callers have checked the bound). -/
def load8U (bits : List Bool) (off : Nat) : Nat :=
  loadBitsBE ((bits.drop off).take 8)

/-- Value of `bits[off..off+16].load::<u16>()` for a byte-aligned window:
`bitvec` loads the first byte as the least significant one (`load_le`), which
is how the 8086 stores 16-bit displacements and immediates. -/
def load16U (bits : List Bool) (off : Nat) : Nat :=
  load8U bits off + 256 * load8U bits (off + 8)

/-- Model of `bits[off..off+8].load::<u8>()` without a prior bound check:
`none` is the slicing panic. -/
def load8? (bits : List Bool) (off : Nat) : Option Nat :=
  if off + 8 ≤ bits.length then some (load8U bits off) else none

/-- Model of `bits[off..off+16].load::<u16>()` without a prior bound check. -/
def load16? (bits : List Bool) (off : Nat) : Option Nat :=
  if off + 16 ≤ bits.length then some (load16U bits off) else none

/-- Reinterpretation `u16 as i16` (value assumed below 2^16). -/
def i16ofU16 (v : Nat) : Int :=
  if v < 32768 then (v : Int) else (v : Int) - 65536

/-- Reinterpretation `u16 as i8` in Rust: truncate to the low byte, then
reinterpret that byte as signed. -/
def i8ofU16 (v : Nat) : Int :=
  if v % 256 < 128 then ((v % 256 : Nat) : Int) else ((v % 256 : Nat) : Int) - 256

/-- Addressing mode, from `src/mode.rs` (`main.rs` holds an identical copy). -/
inductive Mode where
  | Memory
  | Displace8Bits
  | Displace16Bits
  | Register
deriving DecidableEq

/-- Mode from the two `mod` bits, per `From<&[bool; 2]> for Mode`. -/
def Mode.fromBits : Bool → Bool → Mode
  | true, true => Mode.Register
  | true, false => Mode.Displace16Bits
  | false, true => Mode.Displace8Bits
  | false, false => Mode.Memory

/-- The sixteen 8086 registers, from `src/main.rs` (`instruction.rs` imports
the same enum from a `register` module that is not under `src/`; `main.rs`
and the spec glossary give the identical table). -/
inductive Register where
  | AL | AH | AX | BL | BH | BX | CL | CH | CX | DL | DH | DX | SP | BP | SI | DI
deriving DecidableEq

/-- Register from the three `reg`/`rm` bits plus the width flag, per
`Register::from_bits` in `src/main.rs`. -/
def Register.fromBits : Bool → Bool → Bool → Bool → Register
  | false, false, false, false => Register.AL
  | false, false, false, true => Register.AX
  | true, false, false, false => Register.AH
  | true, false, false, true => Register.SP
  | false, true, true, false => Register.BL
  | false, true, true, true => Register.BX
  | true, true, true, false => Register.BH
  | true, true, true, true => Register.DI
  | false, false, true, false => Register.CL
  | false, false, true, true => Register.CX
  | true, false, true, false => Register.CH
  | true, false, true, true => Register.BP
  | false, true, false, false => Register.DL
  | false, true, false, true => Register.DX
  | true, true, false, false => Register.DH
  | true, true, false, true => Register.SI

/-- Rendering of a register name: the `Display` impl lower-cases the derived
`Debug` name. -/
def Register.display : Register → String
  | Register.AL => "al" | Register.AH => "ah" | Register.AX => "ax"
  | Register.BL => "bl" | Register.BH => "bh" | Register.BX => "bx"
  | Register.CL => "cl" | Register.CH => "ch" | Register.CX => "cx"
  | Register.DL => "dl" | Register.DH => "dh" | Register.DX => "dx"
  | Register.SP => "sp" | Register.BP => "bp" | Register.SI => "si"
  | Register.DI => "di"

/-- Decode error, from `ParseInstructionError` (a static message).  Message
text is kept verbatim up to ASCII punctuation. -/
structure ParseInstructionError where
  msg : String
deriving DecidableEq

/-- Decidable equality on decode results, for evaluating the model on
concrete inputs. -/
instance {ε α : Type} [DecidableEq ε] [DecidableEq α] : DecidableEq (Except ε α) :=
  fun x y =>
    match x, y with
    | Except.ok a, Except.ok b =>
        if h : a = b then isTrue (by rw [h]) else isFalse (by simp [h])
    | Except.error a, Except.error b =>
        if h : a = b then isTrue (by rw [h]) else isFalse (by simp [h])
    | Except.ok _, Except.error _ => isFalse (by simp)
    | Except.error _, Except.ok _ => isFalse (by simp)

/-- Model of `str::starts_with('[')`: does the first character equal `[`.
(Defined on the character list so that concrete renderings evaluate inside
the kernel.) -/
def startsWithBracket (s : String) : Bool :=
  match s.data with
  | [] => false
  | c :: _ => c = '['

namespace Instr

/-- The `Instruction` enum of `src/instruction.rs`: one variant per MOV
encoding, with the raw `rm` bits, the optional displacement, and the byte
count the decode consumed. -/
inductive Instruction where
  | RegisterMemoryMov (d wide : Bool) (mode : Mode) (reg : Register)
      (rm : Bool × Bool × Bool) (disp : Option Nat) (bytesUsed : Nat)
  | ImmediateRegisterMov (wide : Bool) (reg : Register) (data : Nat) (bytesUsed : Nat)
  | ImmediateRegisterMemoryMov (wide : Bool) (mode : Mode)
      (rm : Bool × Bool × Bool) (disp : Option Nat) (data : Nat) (bytesUsed : Nat)
  | MemoryAccumMov (toMemory wide : Bool) (addr : Nat) (bytesUsed : Nat)
deriving DecidableEq

/-- Byte count accessor `Instruction::bytes`. -/
def Instruction.bytes : Instruction → Nat
  | Instruction.RegisterMemoryMov _ _ _ _ _ _ b => b
  | Instruction.ImmediateRegisterMov _ _ _ b => b
  | Instruction.ImmediateRegisterMemoryMov _ _ _ _ _ b => b
  | Instruction.MemoryAccumMov _ _ _ b => b

/-- Mnemonic accessor `Instruction::opcode_name` (always `mov`). -/
def Instruction.opcodeName : Instruction → String
  | Instruction.RegisterMemoryMov _ _ _ _ _ _ _ => "mov"
  | Instruction.ImmediateRegisterMov _ _ _ _ => "mov"
  | Instruction.ImmediateRegisterMemoryMov _ _ _ _ _ _ => "mov"
  | Instruction.MemoryAccumMov _ _ _ _ => "mov"

/-- The effective-address base text, per `deserialize_effective_address` in
`src/instruction.rs`; `none` models the `disp.unwrap()` panic in the
direct-address branch (the `println!` diagnostic is ignored, per the spec it
must not affect decoding). -/
def deserializeEffectiveAddress (rm : Bool × Bool × Bool) (mode : Mode)
    (disp : Option Nat) : Option String :=
  match rm with
  | (false, false, false) => some "bx + si"
  | (false, false, true) => some "bx + di"
  | (false, true, false) => some "bp + si"
  | (false, true, true) => some "bp + di"
  | (true, false, false) => some "si"
  | (true, false, true) => some "di"
  | (true, true, false) =>
      if mode = Mode.Memory then
        match disp with
        | some v => some ("[" ++ toString v ++ "]")
        | none => none
      else some "bp"
  | (true, true, true) => some "bx"

/-- The displacement suffix, per `deserialize_displacement` in
`src/instruction.rs`.  The source casts the stored `u16` with `as i32` when
wide and `as i16` when narrow before checking the sign; `none` models the
`disp.unwrap()` panic. -/
def deserializeDisplacement (mode : Mode) (disp : Option Nat) (wide : Bool) :
    Option String :=
  if mode = Mode.Memory then some "" else
  match disp with
  | none => none
  | some val =>
    if val = 0 then some "" else
    if wide then
      let signedVal : Int := (val : Int)
      let op := if signedVal < 0 then "-" else "+"
      some (" " ++ op ++ " " ++ toString signedVal.natAbs)
    else
      let signedVal : Int := i16ofU16 val
      let op := if signedVal < 0 then "-" else "+"
      some (" " ++ op ++ " " ++ toString signedVal.natAbs)

/-- Rendering `Instruction::to_asm` of `src/instruction.rs`; `none` models a
panic inside one of the two `deserialize_*` helpers. -/
def Instruction.toAsm (i : Instruction) : Option String :=
  match i with
  | Instruction.RegisterMemoryMov d wide mode reg rm disp _ => do
      let rmReg ←
        if mode = Mode.Register then
          some (Register.display (Register.fromBits rm.1 rm.2.1 rm.2.2 wide))
        else do
          let effectiveAddress ← deserializeEffectiveAddress rm mode disp
          let dispStr ← deserializeDisplacement mode disp wide
          some (if startsWithBracket effectiveAddress then effectiveAddress
                else "[" ++ effectiveAddress ++ dispStr ++ "]")
      let sd := if d then (rmReg, Register.display reg)
                else (Register.display reg, rmReg)
      some (i.opcodeName ++ " " ++ sd.2 ++ ", " ++ sd.1)
  | Instruction.ImmediateRegisterMov wide reg data _ =>
      if wide then
        some (i.opcodeName ++ " " ++ Register.display reg ++ ", " ++
              toString (i16ofU16 data))
      else
        some (i.opcodeName ++ " " ++ Register.display reg ++ ", " ++
              toString (i8ofU16 data))
  | Instruction.ImmediateRegisterMemoryMov wide mode rm disp data _ => do
      let effectiveAddress ← deserializeEffectiveAddress rm mode disp
      let dispStr ← deserializeDisplacement mode disp wide
      let dest := if startsWithBracket effectiveAddress then effectiveAddress
                  else "[" ++ effectiveAddress ++ dispStr ++ "]"
      let src := if wide then "word " ++ toString data else "byte " ++ toString data
      some (i.opcodeName ++ " " ++ dest ++ ", " ++ src)
  | Instruction.MemoryAccumMov toMemory _ addr _ =>
      let sd := if toMemory then ("ax", "[" ++ toString addr ++ "]")
                else ("[" ++ toString addr ++ "]", "ax")
      some (i.opcodeName ++ " " ++ sd.2 ++ ", " ++ sd.1)

/-- Decoder for the register/memory-to-register form,
`Instruction::try_parse_register_memory_mov` in `src/instruction.rs`.  Every
bit access and load in the source is behind an explicit length check, so the
function is total and returns the typed result. -/
def tryParseRegisterMemoryMov (bits : List Bool) :
    Except ParseInstructionError Instruction :=
  if bits.length < 16 then
    Except.error ⟨"Incoming bits has less than 16 bits!"⟩
  else
    let d := bitAt bits 6
    let wide := bitAt bits 7
    let mode := Mode.fromBits (bitAt bits 8) (bitAt bits 9)
    let reg := Register.fromBits (bitAt bits 10) (bitAt bits 11) (bitAt bits 12) wide
    let rm := (bitAt bits 13, bitAt bits 14, bitAt bits 15)
    match mode with
    | Mode.Displace8Bits =>
        if bits.length < 24 then
          Except.error ⟨"Incoming instruction has an 8 bit displacement, but the disp_lo byte was not provided. Requires at least 24 bits."⟩
        else
          Except.ok (Instruction.RegisterMemoryMov d wide Mode.Displace8Bits reg rm
            (some (load8U bits 16)) 3)
    | Mode.Displace16Bits =>
        if bits.length < 32 then
          Except.error ⟨"Incoming instruction has an 16 bit displacement, but the disp_hi byte was not provided. Requires at least 32 bits."⟩
        else
          Except.ok (Instruction.RegisterMemoryMov d wide Mode.Displace16Bits reg rm
            (some (load16U bits 16)) 4)
    | Mode.Memory =>
        if rm = (true, true, false) then
          if bits.length < 32 then
            Except.error ⟨"Incoming instruction has an 16 bit displacement, but the disp_hi byte was not provided. Requires at least 32 bits."⟩
          else
            Except.ok (Instruction.RegisterMemoryMov d wide Mode.Memory reg rm
              (some (load16U bits 16)) 4)
        else
          Except.ok (Instruction.RegisterMemoryMov d wide Mode.Memory reg rm none 2)
    | Mode.Register =>
        Except.ok (Instruction.RegisterMemoryMov d wide Mode.Register reg rm none 2)

/-- Decoder for the immediate-to-register form,
`Instruction::try_parse_immediate_register_mov` in `src/instruction.rs`
(guarded throughout, hence total). -/
def tryParseImmediateRegisterMov (bits : List Bool) :
    Except ParseInstructionError Instruction :=
  if bits.length < 16 then
    Except.error ⟨"Incoming bits has less than 16 bits!"⟩
  else
    let wide := bitAt bits 4
    let reg := Register.fromBits (bitAt bits 5) (bitAt bits 6) (bitAt bits 7) wide
    if wide then
      if bits.length < 24 then
        Except.error ⟨"Expected wide data. Received less than 24 bits."⟩
      else
        Except.ok (Instruction.ImmediateRegisterMov wide reg (load16U bits 8) 3)
    else
      Except.ok (Instruction.ImmediateRegisterMov wide reg (load8U bits 8) 2)

/-- Decoder for the immediate-to-register/memory form,
`Instruction::try_parse_immediate_register_memory_mov` in
`src/instruction.rs`.  The source performs no length checks at all, so every
bit access and load can panic: `none` models those panics. -/
def tryParseImmediateRegisterMemoryMov (bits : List Bool) :
    Option (Except ParseInstructionError Instruction) := do
  let wide ← bitAt? bits 7
  let m1 ← bitAt? bits 8
  let m0 ← bitAt? bits 9
  let mode := Mode.fromBits m1 m0
  let r2 ← bitAt? bits 13
  let r1 ← bitAt? bits 14
  let r0 ← bitAt? bits 15
  let rm := (r2, r1, r0)
  match mode with
  | Mode.Displace8Bits => do
      let dsp ← load8? bits 16
      if wide then do
        let data ← load16? bits 24
        some (Except.ok (Instruction.ImmediateRegisterMemoryMov wide Mode.Displace8Bits
          rm (some dsp) data 5))
      else do
        let data ← load8? bits 24
        some (Except.ok (Instruction.ImmediateRegisterMemoryMov wide Mode.Displace8Bits
          rm (some dsp) data 4))
  | Mode.Displace16Bits => do
      let dsp ← load16? bits 16
      if wide then do
        let data ← load16? bits 32
        some (Except.ok (Instruction.ImmediateRegisterMemoryMov wide Mode.Displace16Bits
          rm (some dsp) data 6))
      else do
        let data ← load8? bits 32
        some (Except.ok (Instruction.ImmediateRegisterMemoryMov wide Mode.Displace16Bits
          rm (some dsp) data 5))
  | Mode.Memory =>
      if rm = (true, true, false) then do
        let dsp ← load16? bits 16
        if wide then do
          let data ← load16? bits 32
          some (Except.ok (Instruction.ImmediateRegisterMemoryMov wide Mode.Memory
            rm (some dsp) data 6))
        else do
          let data ← load8? bits 32
          some (Except.ok (Instruction.ImmediateRegisterMemoryMov wide Mode.Memory
            rm (some dsp) data 5))
      else
        if wide then do
          let data ← load16? bits 16
          some (Except.ok (Instruction.ImmediateRegisterMemoryMov wide Mode.Memory
            rm none data 4))
        else do
          let data ← load8? bits 16
          some (Except.ok (Instruction.ImmediateRegisterMemoryMov wide Mode.Memory
            rm none data 3))
  | Mode.Register =>
      if wide then do
        let data ← load16? bits 16
        some (Except.ok (Instruction.ImmediateRegisterMemoryMov wide Mode.Register
          rm none data 4))
      else do
        let data ← load8? bits 16
        some (Except.ok (Instruction.ImmediateRegisterMemoryMov wide Mode.Register
          rm none data 3))

/-- Decoder for the memory/accumulator form,
`Instruction::try_parse_memory_accum_mov` in `src/instruction.rs` (again, no
length checks in the source, so accesses may panic). -/
def tryParseMemoryAccumMov (bits : List Bool) :
    Option (Except ParseInstructionError Instruction) := do
  let toMemory ← bitAt? bits 6
  let wide ← bitAt? bits 7
  if wide then do
    let addr ← load16? bits 8
    some (Except.ok (Instruction.MemoryAccumMov toMemory wide addr 3))
  else do
    let addr ← load8? bits 8
    some (Except.ok (Instruction.MemoryAccumMov toMemory wide addr 2))

/-- Opcode dispatch, `TryFrom<&BitSlice<u8, Msb0>> for Instruction` in
`src/instruction.rs`.  The seven leading bits are inspected; a pattern
outside the four MOV encodings hits `unimplemented!` (a panic, modelled by
`none`). -/
def tryFrom (bits : List Bool) :
    Option (Except ParseInstructionError Instruction) := do
  let b0 ← bitAt? bits 0
  let b1 ← bitAt? bits 1
  let b2 ← bitAt? bits 2
  let b3 ← bitAt? bits 3
  let b4 ← bitAt? bits 4
  let b5 ← bitAt? bits 5
  let b6 ← bitAt? bits 6
  match b0, b1, b2, b3, b4, b5, b6 with
  | true, false, false, false, true, false, _ => some (tryParseRegisterMemoryMov bits)
  | true, false, true, true, _, _, _ => some (tryParseImmediateRegisterMov bits)
  | true, true, false, false, false, true, true => tryParseImmediateRegisterMemoryMov bits
  | true, false, true, false, false, false, _ => tryParseMemoryAccumMov bits
  | _, _, _, _, _, _, _ => none

end Instr

namespace Main

/-- The `Instruction` enum of `src/main.rs`: this draft only supports the
register/memory and immediate-to-register MOV forms. -/
inductive Instruction where
  | RegisterMemoryMov (d wide : Bool) (mode : Mode) (reg : Register)
      (rm : Bool × Bool × Bool) (disp : Option Nat) (bytesUsed : Nat)
  | ImmediateRegisterMov (wide : Bool) (reg : Register) (data : Nat) (bytesUsed : Nat)
deriving DecidableEq

/-- Byte count accessor `Instruction::bytes` of `src/main.rs`. -/
def Instruction.bytes : Instruction → Nat
  | Instruction.RegisterMemoryMov _ _ _ _ _ _ b => b
  | Instruction.ImmediateRegisterMov _ _ _ b => b

/-- Mnemonic accessor `Instruction::opcode_name` of `src/main.rs`. -/
def Instruction.opcodeName : Instruction → String
  | Instruction.RegisterMemoryMov _ _ _ _ _ _ _ => "mov"
  | Instruction.ImmediateRegisterMov _ _ _ _ => "mov"

/-- Effective-address base text, per `deserialize_effective_address` in
`src/main.rs` (identical to the `instruction.rs` copy minus a diagnostic
print); `none` models the `disp.unwrap()` panic. -/
def deserializeEffectiveAddress (rm : Bool × Bool × Bool) (mode : Mode)
    (disp : Option Nat) : Option String :=
  match rm with
  | (false, false, false) => some "bx + si"
  | (false, false, true) => some "bx + di"
  | (false, true, false) => some "bp + si"
  | (false, true, true) => some "bp + di"
  | (true, false, false) => some "si"
  | (true, false, true) => some "di"
  | (true, true, false) =>
      if mode = Mode.Memory then
        match disp with
        | some v => some ("[" ++ toString v ++ "]")
        | none => none
      else some "bp"
  | (true, true, true) => some "bx"

/-- Displacement suffix, per `deserialize_displacement` in `src/main.rs`:
this draft takes a `signed_output` flag; when it is false the raw unsigned
value is printed with a `+` sign, when true the value is cast `as i16`
(wide) or `as i8` (narrow) first.  `none` models the `disp.unwrap()` panic. -/
def deserializeDisplacement (mode : Mode) (disp : Option Nat) (wide : Bool)
    (signedOutput : Bool) : Option String :=
  if mode = Mode.Memory then some "" else
  match disp with
  | none => none
  | some val =>
    if val = 0 then some "" else
    if !signedOutput then some (" + " ++ toString val) else
    if wide then
      let signedVal : Int := i16ofU16 val
      let op := if signedVal < 0 then "-" else "+"
      some (" " ++ op ++ " " ++ toString signedVal.natAbs)
    else
      let signedVal : Int := i8ofU16 val
      let op := if signedVal < 0 then "-" else "+"
      some (" " ++ op ++ " " ++ toString signedVal.natAbs)

/-- Rendering `Instruction::to_asm` of `src/main.rs`. -/
def Instruction.toAsm (i : Instruction) (signedOutput : Bool) : Option String :=
  match i with
  | Instruction.RegisterMemoryMov d wide mode reg rm disp _ => do
      let rmReg ←
        if mode = Mode.Register then
          some (Register.display (Register.fromBits rm.1 rm.2.1 rm.2.2 wide))
        else do
          let effectiveAddress ← deserializeEffectiveAddress rm mode disp
          let dispStr ← deserializeDisplacement mode disp wide signedOutput
          some (if startsWithBracket effectiveAddress then effectiveAddress
                else "[" ++ effectiveAddress ++ dispStr ++ "]")
      let sd := if d then (rmReg, Register.display reg)
                else (Register.display reg, rmReg)
      some (i.opcodeName ++ " " ++ sd.2 ++ ", " ++ sd.1)
  | Instruction.ImmediateRegisterMov wide reg data _ =>
      if wide then
        some (i.opcodeName ++ " " ++ Register.display reg ++ ", " ++
              toString (i16ofU16 data))
      else
        some (i.opcodeName ++ " " ++ Register.display reg ++ ", " ++
              toString (i8ofU16 data))

/-- Model of `bits[16..].load::<u16>()` as used by `src/main.rs` under its
`len ≥ 32` guard: `bitvec` panics when the remainder exceeds the 16 bits of
the target type, so the load succeeds exactly when the window is 32 bits
long (shorter windows are excluded by the guard). -/
def loadRest16 (bits : List Bool) : Option Nat :=
  if bits.length = 32 then some (load16U bits 16) else none

/-- Decoder for the register/memory form,
`Instruction::try_parse_register_memory_mov` in `src/main.rs`.  Identical to
the `instruction.rs` copy except the 16-bit displacement loads take the whole
remainder of the window (`bits[16..]`). -/
def tryParseRegisterMemoryMov (bits : List Bool) :
    Option (Except ParseInstructionError Instruction) :=
  if bits.length < 16 then
    some (Except.error ⟨"Incoming bits has less than 16 bits!"⟩)
  else
    let d := bitAt bits 6
    let wide := bitAt bits 7
    let mode := Mode.fromBits (bitAt bits 8) (bitAt bits 9)
    let reg := Register.fromBits (bitAt bits 10) (bitAt bits 11) (bitAt bits 12) wide
    let rm := (bitAt bits 13, bitAt bits 14, bitAt bits 15)
    match mode with
    | Mode.Displace8Bits =>
        if bits.length < 24 then
          some (Except.error ⟨"Incoming instruction has an 8 bit displacement, but the disp_lo byte was not provided. Requires at least 24 bits."⟩)
        else
          some (Except.ok (Instruction.RegisterMemoryMov d wide Mode.Displace8Bits
            reg rm (some (load8U bits 16)) 3))
    | Mode.Displace16Bits =>
        if bits.length < 32 then
          some (Except.error ⟨"Incoming instruction has an 16 bit displacement, but the disp_hi byte was not provided. Requires at least 32 bits."⟩)
        else do
          let dsp ← loadRest16 bits
          some (Except.ok (Instruction.RegisterMemoryMov d wide Mode.Displace16Bits
            reg rm (some dsp) 4))
    | Mode.Memory =>
        if rm = (true, true, false) then
          if bits.length < 32 then
            some (Except.error ⟨"Incoming instruction has an 16 bit displacement, but the disp_hi byte was not provided. Requires at least 32 bits."⟩)
          else do
            let dsp ← loadRest16 bits
            some (Except.ok (Instruction.RegisterMemoryMov d wide Mode.Memory
              reg rm (some dsp) 4))
        else
          some (Except.ok (Instruction.RegisterMemoryMov d wide Mode.Memory
            reg rm none 2))
    | Mode.Register =>
        some (Except.ok (Instruction.RegisterMemoryMov d wide Mode.Register
          reg rm none 2))

/-- Decoder for the immediate-to-register form,
`Instruction::try_parse_immediate_register_mov` in `src/main.rs` (guarded
throughout, hence total). -/
def tryParseImmediateRegisterMov (bits : List Bool) :
    Except ParseInstructionError Instruction :=
  if bits.length < 16 then
    Except.error ⟨"Incoming bits has less than 16 bits!"⟩
  else
    let wide := bitAt bits 4
    let reg := Register.fromBits (bitAt bits 5) (bitAt bits 6) (bitAt bits 7) wide
    if wide then
      if bits.length < 24 then
        Except.error ⟨"Expected wide data. Received less than 24 bits."⟩
      else
        Except.ok (Instruction.ImmediateRegisterMov wide reg (load16U bits 8) 3)
    else
      Except.ok (Instruction.ImmediateRegisterMov wide reg (load8U bits 8) 2)

/-- Opcode dispatch, `TryFrom<&BitSlice<u8, Msb0>> for Instruction` in
`src/main.rs`: six leading bits, two supported patterns, `unimplemented!`
(a panic, modelled by `none`) otherwise. -/
def tryFrom (bits : List Bool) :
    Option (Except ParseInstructionError Instruction) := do
  let b0 ← bitAt? bits 0
  let b1 ← bitAt? bits 1
  let b2 ← bitAt? bits 2
  let b3 ← bitAt? bits 3
  let b4 ← bitAt? bits 4
  let b5 ← bitAt? bits 5
  match b0, b1, b2, b3, b4, b5 with
  | true, false, false, false, true, false => tryParseRegisterMemoryMov bits
  | true, false, true, true, _, _ => some (tryParseImmediateRegisterMov bits)
  | _, _, _, _, _, _ => none

/-- Candidate window length chosen by the `disassemble` loop in
`src/main.rs` from the bits remaining at the current offset. -/
def windowLength (remaining : Nat) : Nat :=
  if 32 ≤ remaining then 32 else if 24 ≤ remaining then 24 else 16

/-- One line per loop iteration of `disassemble` in `src/main.rs`, fuel-based
(the fuel is a modelling artifact; each iteration consumes at least 16 bits,
so `input.length` fuel always suffices).  `none` models any panic inside the
loop: out-of-range slicing, the `unwrap` of a decode error, an
`unimplemented!` opcode, or a rendering panic. -/
def disassembleAux (input : List Bool) (signedOutput : Bool) :
    Nat → Nat → Option (List String)
  | ptr, 0 => if ptr < input.length then none else some []
  | ptr, fuel + 1 =>
    if ptr < input.length then
      match sliceB input ptr (windowLength (input.length - ptr)) with
      | none => none
      | some current =>
        match tryFrom current with
        | some (Except.ok inst) =>
          match inst.toAsm signedOutput with
          | none => none
          | some line =>
            (disassembleAux input signedOutput (ptr + inst.bytes * 8) fuel).map
              (fun rest => line :: rest)
        | _ => none
    else some []

/-- The driver `disassemble` of `src/main.rs`: decode instruction by
instruction and join the rendered lines with newlines. -/
def disassemble (input : List Bool) (signedOutput : Bool) : Option String :=
  (disassembleAux input signedOutput 0 (input.length + 1)).map
    (String.intercalate "\n")

end Main

/-- Byte count the specification assigns to the register/memory-to-register
MOV form, by addressing mode (with the direct-address special case). -/
def regMemMovBytesSpec (m : Mode) (rm : Bool × Bool × Bool) : Nat :=
  match m with
  | Mode.Register => 2
  | Mode.Displace8Bits => 3
  | Mode.Displace16Bits => 4
  | Mode.Memory => if rm = (true, true, false) then 4 else 2

/-- C1: for the register/memory-to-register MOV form, the decoder reports
exactly 2 bytes in RegisterDirect mode, 3 in Displace8, 4 in Displace16, 4 in
Memory mode with rm = 110 (direct address), and 2 for every other Memory-mode
rm value. -/
theorem C1_registerMemoryMov_byte_count (bits : List Bool) (d w : Bool)
    (m : Mode) (reg : Register) (rm : Bool × Bool × Bool) (disp : Option Nat)
    (b : Nat)
    (h : Instr.tryParseRegisterMemoryMov bits =
      Except.ok (Instr.Instruction.RegisterMemoryMov d w m reg rm disp b)) :
    b = regMemMovBytesSpec m rm := by
  by_cases h16 : bits.length < 16
  · simp only [Instr.tryParseRegisterMemoryMov, if_pos h16] at h
    exact absurd h (by simp)
  · rcases hmode : Mode.fromBits (bitAt bits 8) (bitAt bits 9) with _ | _ | _ | _
    · by_cases hrm : (bitAt bits 13, bitAt bits 14, bitAt bits 15) = (true, true, false)
      · by_cases h32 : bits.length < 32
        · simp only [Instr.tryParseRegisterMemoryMov, if_neg h16, hmode, if_pos hrm,
            if_pos h32] at h
          exact absurd h (by simp)
        · simp only [Instr.tryParseRegisterMemoryMov, if_neg h16, hmode, if_pos hrm,
            if_neg h32] at h
          rw [Except.ok.injEq, Instr.Instruction.RegisterMemoryMov.injEq] at h
          obtain ⟨-, -, hm, -, hrm2, -, hb⟩ := h
          subst hm; subst hb; subst hrm2
          simp [regMemMovBytesSpec, hrm]
      · simp only [Instr.tryParseRegisterMemoryMov, if_neg h16, hmode, if_neg hrm] at h
        rw [Except.ok.injEq, Instr.Instruction.RegisterMemoryMov.injEq] at h
        obtain ⟨-, -, hm, -, hrm2, -, hb⟩ := h
        subst hm; subst hb; subst hrm2
        simp [regMemMovBytesSpec, hrm]
    · by_cases h24 : bits.length < 24
      · simp only [Instr.tryParseRegisterMemoryMov, if_neg h16, hmode, if_pos h24] at h
        exact absurd h (by simp)
      · simp only [Instr.tryParseRegisterMemoryMov, if_neg h16, hmode, if_neg h24] at h
        rw [Except.ok.injEq, Instr.Instruction.RegisterMemoryMov.injEq] at h
        obtain ⟨-, -, hm, -, hrm2, -, hb⟩ := h
        subst hm; subst hb; subst hrm2
        simp [regMemMovBytesSpec]
    · by_cases h32 : bits.length < 32
      · simp only [Instr.tryParseRegisterMemoryMov, if_neg h16, hmode, if_pos h32] at h
        exact absurd h (by simp)
      · simp only [Instr.tryParseRegisterMemoryMov, if_neg h16, hmode, if_neg h32] at h
        rw [Except.ok.injEq, Instr.Instruction.RegisterMemoryMov.injEq] at h
        obtain ⟨-, -, hm, -, hrm2, -, hb⟩ := h
        subst hm; subst hb; subst hrm2
        simp [regMemMovBytesSpec]
    · simp only [Instr.tryParseRegisterMemoryMov, if_neg h16, hmode] at h
      rw [Except.ok.injEq, Instr.Instruction.RegisterMemoryMov.injEq] at h
      obtain ⟨-, -, hm, -, hrm2, -, hb⟩ := h
      subst hm; subst hb; subst hrm2
      simp [regMemMovBytesSpec]

/-- Witness for C1: the concrete window `0x89 0xD8` parses in RegisterDirect
mode and the reported byte count is the specified 2. -/
theorem C1_registerMemoryMov_byte_count_witness :
    (2 : Nat) = regMemMovBytesSpec Mode.Register (false, false, false) :=
  C1_registerMemoryMov_byte_count (bytesToBits [0x89, 0xD8]) false true
    Mode.Register Register.BX (false, false, false) none 2 (by decide)

/-- C2: the bytes `0x89 0xD8` decode to a single register/memory-to-register
MOV with mode RegisterDirect, d = 0, w = 1, reg = 011 (BX), rm = 000,
consuming 2 bytes, and the driver renders exactly the line `mov ax, bx`
(for either value of the signed-output flag): with d = 0 the rm-resolved
operand (AX) is the destination. -/
theorem C2_end_to_end_89D8 :
    Main.tryFrom (bytesToBits [0x89, 0xD8]) =
      some (Except.ok (Main.Instruction.RegisterMemoryMov false true Mode.Register
        Register.BX (false, false, false) none 2))
    ∧ Main.disassemble (bytesToBits [0x89, 0xD8]) false = some "mov ax, bx"
    ∧ Main.disassemble (bytesToBits [0x89, 0xD8]) true = some "mov ax, bx" := by
  refine ⟨by decide, ?_, ?_⟩ <;> decide

/-- C6: the register namer is total (its codomain is the 16-name enum) and,
for each width flag, injective on the eight 3-bit codes. -/
theorem C6_register_namer_injective (w : Bool) (b1 b2 : Bool × Bool × Bool)
    (h : Register.fromBits b1.1 b1.2.1 b1.2.2 w = Register.fromBits b2.1 b2.2.1 b2.2.2 w) :
    b1 = b2 := by
  revert h
  revert w b1 b2
  decide

/-- Witness for C6: instantiation at a concrete pair of equal codes. -/
theorem C6_register_namer_injective_witness :
    (false, true, true) = ((false, true, true) : Bool × Bool × Bool) :=
  C6_register_namer_injective true (false, true, true) (false, true, true) (by decide)

/-- C3: evaluation of the code at the failing input.  The window
`0x8A 0x40 0xFE` decodes to `mov al, [bx + si]` with an 8-bit displacement of
raw value `0xFE`; the renderer of `src/instruction.rs` casts the
zero-extended stored `u16` with `as i16` (narrow) or `as i32` (wide), so the
value 254 stays positive and the line renders as ` + 254` where the claim
(and the spec) require ` - 2`. -/
theorem C3_displacement_sign_code_bug :
    Instr.tryFrom (bytesToBits [0x8A, 0x40, 0xFE]) =
      some (Except.ok (Instr.Instruction.RegisterMemoryMov true false
        Mode.Displace8Bits Register.AL (false, false, false) (some 0xFE) 3))
    ∧ Instr.Instruction.toAsm (Instr.Instruction.RegisterMemoryMov true false
        Mode.Displace8Bits Register.AL (false, false, false) (some 0xFE) 3) =
      some "mov al, [bx + si + 254]"
    ∧ Instr.deserializeDisplacement Mode.Displace8Bits (some 0xFE) false =
      some " + 254"
    ∧ (" + 254" : String) ≠ " - 2" := by
  refine ⟨by decide, by decide, by decide, by decide⟩

/-- Counterexample for C4: a 16-bit window whose leading bits match the
immediate-to-register/memory pattern `1100011w` but whose mode/width
combination requires more bits does not produce a ParseError: the parse
function performs no length check and panics on an out-of-range load
(modelled by `none`).  Likewise a 16-bit window matching the wide
memory-accumulator pattern `10100001` (which needs 24 bits for its address)
panics instead of erroring. -/
theorem C4_short_window_panic_counterexample :
    Instr.tryFrom (bytesToBits [0xC6, 0x00]) = none
    ∧ Instr.tryParseImmediateRegisterMemoryMov (bytesToBits [0xC6, 0x00]) = none
    ∧ Instr.tryFrom (bytesToBits [0xA1, 0x01]) = none
    ∧ Instr.tryParseMemoryAccumMov (bytesToBits [0xA1, 0x01]) = none := by
  refine ⟨by decide, by decide, by decide, by decide⟩

/-- Counterexample for C5: the byte `0x00` matches none of the four MOV
opcode patterns, and decoding panics (`unimplemented!`, modelled by `none`)
instead of producing a recoverable error value. -/
theorem C5_unsupported_opcode_panic_counterexample :
    Instr.tryFrom (bytesToBits [0x00, 0x00]) = none := by decide

/-- Counterexample for C7: the window `0xC6 0xC0 0x05` (immediate to
register/memory, RegisterDirect mode, narrow) has no displacement and a
narrow immediate, yet consumes 3 bytes, not the 2 the claim gives as the
lower end of the range. -/
theorem C7_min_byte_count_counterexample :
    Instr.tryParseImmediateRegisterMemoryMov (bytesToBits [0xC6, 0xC0, 0x05]) =
      some (Except.ok (Instr.Instruction.ImmediateRegisterMemoryMov false
        Mode.Register (false, false, false) none 5 3))
    ∧ (3 : Nat) ≠ 2 := by
  refine ⟨by decide, by decide⟩

/-- Displacement byte count of the form-(1) rules, per the spec (including
the direct-address special case). -/
def dispBytesSpec (m : Mode) (rm : Bool × Bool × Bool) : Nat :=
  match m with
  | Mode.Memory => if rm = (true, true, false) then 2 else 0
  | Mode.Displace8Bits => 1
  | Mode.Displace16Bits => 2
  | Mode.Register => 0

/-- Characterisation of a successful immediate-to-register/memory decode:
relates the stored displacement option and the reported byte count to the
mode/rm/width of the window.  Shared helper for the byte-count and
displacement-invariant theorems. -/
theorem tryParseImmRegMemMov_ok_shape (bits : List Bool) (w : Bool) (m : Mode)
    (rm : Bool × Bool × Bool) (dsp : Option Nat) (data b : Nat)
    (h : Instr.tryParseImmediateRegisterMemoryMov bits =
      some (Except.ok (Instr.Instruction.ImmediateRegisterMemoryMov w m rm dsp data b))) :
    (dsp = none ↔ (m = Mode.Register ∨ (m = Mode.Memory ∧ rm ≠ (true, true, false))))
    ∧ b = 2 + dispBytesSpec m rm + (if w then 2 else 1) := by
  unfold Instr.tryParseImmediateRegisterMemoryMov at h
  simp only [Option.bind_eq_bind'] at h
  rcases h7 : bitAt? bits 7 with _ | wide <;> rw [h7] at h
  · rw [Option.none_bind'] at h; exact Option.noConfusion h
  rw [Option.some_bind'] at h
  rcases h8 : bitAt? bits 8 with _ | m1 <;> rw [h8] at h
  · rw [Option.none_bind'] at h; exact Option.noConfusion h
  rw [Option.some_bind'] at h
  rcases h9 : bitAt? bits 9 with _ | m0 <;> rw [h9] at h
  · rw [Option.none_bind'] at h; exact Option.noConfusion h
  rw [Option.some_bind'] at h
  rcases h13 : bitAt? bits 13 with _ | r2 <;> rw [h13] at h
  · rw [Option.none_bind'] at h; exact Option.noConfusion h
  rw [Option.some_bind'] at h
  rcases h14 : bitAt? bits 14 with _ | r1 <;> rw [h14] at h
  · rw [Option.none_bind'] at h; exact Option.noConfusion h
  rw [Option.some_bind'] at h
  rcases h15 : bitAt? bits 15 with _ | r0 <;> rw [h15] at h
  · rw [Option.none_bind'] at h; exact Option.noConfusion h
  rw [Option.some_bind'] at h
  split at h
  · rcases hv : load8? bits 16 with _ | dv <;> rw [hv] at h
    · rw [Option.none_bind'] at h; exact Option.noConfusion h
    rw [Option.some_bind'] at h
    cases wide <;>
      simp only [Bool.false_eq_true, eq_self_iff_true, if_false, if_true] at h
    · rcases hdat : load8? bits 24 with _ | dat <;> rw [hdat] at h
      · rw [Option.none_bind'] at h; exact Option.noConfusion h
      rw [Option.some_bind', Option.some.injEq, Except.ok.injEq,
        Instr.Instruction.ImmediateRegisterMemoryMov.injEq] at h
      obtain ⟨hw, hm, hrm, hdsp, -, hb⟩ := h
      subst hw; subst hm; subst hrm; subst hb; subst hdsp
      simp_all [dispBytesSpec]
    · rcases hdat : load16? bits 24 with _ | dat <;> rw [hdat] at h
      · rw [Option.none_bind'] at h; exact Option.noConfusion h
      rw [Option.some_bind', Option.some.injEq, Except.ok.injEq,
        Instr.Instruction.ImmediateRegisterMemoryMov.injEq] at h
      obtain ⟨hw, hm, hrm, hdsp, -, hb⟩ := h
      subst hw; subst hm; subst hrm; subst hb; subst hdsp
      simp_all [dispBytesSpec]
  · rcases hv : load16? bits 16 with _ | dv <;> rw [hv] at h
    · rw [Option.none_bind'] at h; exact Option.noConfusion h
    rw [Option.some_bind'] at h
    cases wide <;>
      simp only [Bool.false_eq_true, eq_self_iff_true, if_false, if_true] at h
    · rcases hdat : load8? bits 32 with _ | dat <;> rw [hdat] at h
      · rw [Option.none_bind'] at h; exact Option.noConfusion h
      rw [Option.some_bind', Option.some.injEq, Except.ok.injEq,
        Instr.Instruction.ImmediateRegisterMemoryMov.injEq] at h
      obtain ⟨hw, hm, hrm, hdsp, -, hb⟩ := h
      subst hw; subst hm; subst hrm; subst hb; subst hdsp
      simp_all [dispBytesSpec]
    · rcases hdat : load16? bits 32 with _ | dat <;> rw [hdat] at h
      · rw [Option.none_bind'] at h; exact Option.noConfusion h
      rw [Option.some_bind', Option.some.injEq, Except.ok.injEq,
        Instr.Instruction.ImmediateRegisterMemoryMov.injEq] at h
      obtain ⟨hw, hm, hrm, hdsp, -, hb⟩ := h
      subst hw; subst hm; subst hrm; subst hb; subst hdsp
      simp_all [dispBytesSpec]
  · split at h
    · rename_i hrm110
      rcases hv : load16? bits 16 with _ | dv <;> rw [hv] at h
      · rw [Option.none_bind'] at h; exact Option.noConfusion h
      rw [Option.some_bind'] at h
      cases wide <;>
        simp only [Bool.false_eq_true, eq_self_iff_true, if_false, if_true] at h
      · rcases hdat : load8? bits 32 with _ | dat <;> rw [hdat] at h
        · rw [Option.none_bind'] at h; exact Option.noConfusion h
        rw [Option.some_bind', Option.some.injEq, Except.ok.injEq,
          Instr.Instruction.ImmediateRegisterMemoryMov.injEq] at h
        obtain ⟨hw, hm, hrm, hdsp, -, hb⟩ := h
        subst hw; subst hm; subst hrm; subst hb; subst hdsp
        simp_all [dispBytesSpec]
      · rcases hdat : load16? bits 32 with _ | dat <;> rw [hdat] at h
        · rw [Option.none_bind'] at h; exact Option.noConfusion h
        rw [Option.some_bind', Option.some.injEq, Except.ok.injEq,
          Instr.Instruction.ImmediateRegisterMemoryMov.injEq] at h
        obtain ⟨hw, hm, hrm, hdsp, -, hb⟩ := h
        subst hw; subst hm; subst hrm; subst hb; subst hdsp
        simp_all [dispBytesSpec]
    · rename_i hrm110
      cases wide <;>
        simp only [Bool.false_eq_true, eq_self_iff_true, if_false, if_true] at h
      · rcases hdat : load8? bits 16 with _ | dat <;> rw [hdat] at h
        · rw [Option.none_bind'] at h; exact Option.noConfusion h
        rw [Option.some_bind', Option.some.injEq, Except.ok.injEq,
          Instr.Instruction.ImmediateRegisterMemoryMov.injEq] at h
        obtain ⟨hw, hm, hrm, hdsp, -, hb⟩ := h
        subst hw; subst hm; subst hrm; subst hb; subst hdsp
        simp_all [dispBytesSpec]
      · rcases hdat : load16? bits 16 with _ | dat <;> rw [hdat] at h
        · rw [Option.none_bind'] at h; exact Option.noConfusion h
        rw [Option.some_bind', Option.some.injEq, Except.ok.injEq,
          Instr.Instruction.ImmediateRegisterMemoryMov.injEq] at h
        obtain ⟨hw, hm, hrm, hdsp, -, hb⟩ := h
        subst hw; subst hm; subst hrm; subst hb; subst hdsp
        simp_all [dispBytesSpec]
  · cases wide <;>
      simp only [Bool.false_eq_true, eq_self_iff_true, if_false, if_true] at h
    · rcases hdat : load8? bits 16 with _ | dat <;> rw [hdat] at h
      · rw [Option.none_bind'] at h; exact Option.noConfusion h
      rw [Option.some_bind', Option.some.injEq, Except.ok.injEq,
        Instr.Instruction.ImmediateRegisterMemoryMov.injEq] at h
      obtain ⟨hw, hm, hrm, hdsp, -, hb⟩ := h
      subst hw; subst hm; subst hrm; subst hb; subst hdsp
      simp_all [dispBytesSpec]
    · rcases hdat : load16? bits 16 with _ | dat <;> rw [hdat] at h
      · rw [Option.none_bind'] at h; exact Option.noConfusion h
      rw [Option.some_bind', Option.some.injEq, Except.ok.injEq,
        Instr.Instruction.ImmediateRegisterMemoryMov.injEq] at h
      obtain ⟨hw, hm, hrm, hdsp, -, hb⟩ := h
      subst hw; subst hm; subst hrm; subst hb; subst hdsp
      simp_all [dispBytesSpec]

/-- C7 (amended): for the immediate-to-register/memory MOV form the reported
byte count equals 2 (opcode and mode/rm bytes) plus the displacement byte
count (0, 1 or 2 per the form-(1) rules with the direct-address special
case) plus the immediate byte count (1 narrow, 2 wide), and the total ranges
from 3 (no displacement, narrow) through 6 (16-bit displacement, wide). -/
theorem C7_immediate_regmem_byte_count (bits : List Bool) (w : Bool) (m : Mode)
    (rm : Bool × Bool × Bool) (dsp : Option Nat) (data b : Nat)
    (h : Instr.tryParseImmediateRegisterMemoryMov bits =
      some (Except.ok (Instr.Instruction.ImmediateRegisterMemoryMov w m rm dsp data b))) :
    b = 2 + dispBytesSpec m rm + (if w then 2 else 1) ∧ 3 ≤ b ∧ b ≤ 6 := by
  have hb := (tryParseImmRegMemMov_ok_shape bits w m rm dsp data b h).2
  refine ⟨hb, ?_, ?_⟩ <;> rw [hb] <;>
    by_cases hrm : rm = (true, true, false) <;> cases m <;> cases w <;>
    simp [dispBytesSpec, hrm]

/-- Witness for C7: the concrete window `0xC7 0x84 0x02 0x01 0xFF 0x00`
(immediate to register/memory, Displace16, wide) reports 6 bytes, matching
2 + 2 + 2 and the range bound. -/
theorem C7_immediate_regmem_byte_count_witness :
    (6 : Nat) = 2 + dispBytesSpec Mode.Displace16Bits (true, false, false) +
      (if true then 2 else 1) ∧ 3 ≤ 6 ∧ 6 ≤ 6 :=
  C7_immediate_regmem_byte_count
    (bytesToBits [0xC7, 0x84, 0x02, 0x01, 0xFF, 0x00]) true
    Mode.Displace16Bits (true, false, false) (some 0x0102) 0xFF 6 (by decide)

/-- C4 (amended): windows shorter than the declared minimum produce a typed
ParseError with a static message in the register/memory-to-register and
immediate-to-register forms — below 16 bits for either form, below 24 bits
for a Displace8 mode or a wide immediate, below 32 bits for Displace16 or
the direct-address case; the other two MOV forms perform no length checks
and panic instead: see the counterexample for the immediate-to-register/
memory form, and the last conjunct here for the memory-accumulator form,
which panics whenever its address bytes are missing (fewer than 16 further
bits when wide, fewer than 8 when narrow). -/
theorem C4_short_window_parse_error :
    (∀ bits : List Bool, bits.length < 16 →
      Instr.tryParseRegisterMemoryMov bits =
        Except.error ⟨"Incoming bits has less than 16 bits!"⟩)
    ∧ (∀ bits : List Bool, bits.length < 16 →
      Instr.tryParseImmediateRegisterMov bits =
        Except.error ⟨"Incoming bits has less than 16 bits!"⟩)
    ∧ (∀ a c : Nat, ∀ rest : List Bool,
        Mode.fromBits (c.testBit 7) (c.testBit 6) = Mode.Displace8Bits →
        rest.length < 8 →
        Instr.tryParseRegisterMemoryMov (byteBits a ++ byteBits c ++ rest) =
          Except.error ⟨"Incoming instruction has an 8 bit displacement, but the disp_lo byte was not provided. Requires at least 24 bits."⟩)
    ∧ (∀ a c : Nat, ∀ rest : List Bool,
        Mode.fromBits (c.testBit 7) (c.testBit 6) = Mode.Displace16Bits →
        rest.length < 16 →
        Instr.tryParseRegisterMemoryMov (byteBits a ++ byteBits c ++ rest) =
          Except.error ⟨"Incoming instruction has an 16 bit displacement, but the disp_hi byte was not provided. Requires at least 32 bits."⟩)
    ∧ (∀ a c : Nat, ∀ rest : List Bool,
        Mode.fromBits (c.testBit 7) (c.testBit 6) = Mode.Memory →
        (c.testBit 2, c.testBit 1, c.testBit 0) = (true, true, false) →
        rest.length < 16 →
        Instr.tryParseRegisterMemoryMov (byteBits a ++ byteBits c ++ rest) =
          Except.error ⟨"Incoming instruction has an 16 bit displacement, but the disp_hi byte was not provided. Requires at least 32 bits."⟩)
    ∧ (∀ a : Nat, ∀ rest : List Bool,
        a.testBit 3 = true → 8 ≤ rest.length → rest.length < 16 →
        Instr.tryParseImmediateRegisterMov (byteBits a ++ rest) =
          Except.error ⟨"Expected wide data. Received less than 24 bits."⟩)
    ∧ (∀ a : Nat, ∀ rest : List Bool,
        (a.testBit 0 = true ∧ rest.length < 16) ∨
          (a.testBit 0 = false ∧ rest.length < 8) →
        Instr.tryParseMemoryAccumMov (byteBits a ++ rest) = none) := by
  refine ⟨?_, ?_, ?_, ?_, ?_, ?_, ?_⟩
  · intro bits hl
    unfold Instr.tryParseRegisterMemoryMov
    rw [if_pos hl]
  · intro bits hl
    unfold Instr.tryParseImmediateRegisterMov
    rw [if_pos hl]
  · intro a c rest hm hl
    have hlen : (byteBits a ++ byteBits c ++ rest).length = 16 + rest.length := by
      simp [byteBits]; omega
    have h8 : bitAt (byteBits a ++ byteBits c ++ rest) 8 = c.testBit 7 := by
      simp [bitAt, byteBits]
    have h9 : bitAt (byteBits a ++ byteBits c ++ rest) 9 = c.testBit 6 := by
      simp [bitAt, byteBits]
    have hnot16 : ¬ ((byteBits a ++ byteBits c ++ rest).length < 16) := by
      rw [hlen]; omega
    have hlt24 : (byteBits a ++ byteBits c ++ rest).length < 24 := by
      rw [hlen]; omega
    simp only [Instr.tryParseRegisterMemoryMov, if_neg hnot16, h8, h9, hm,
      if_pos hlt24]
  · intro a c rest hm hl
    have hlen : (byteBits a ++ byteBits c ++ rest).length = 16 + rest.length := by
      simp [byteBits]; omega
    have h8 : bitAt (byteBits a ++ byteBits c ++ rest) 8 = c.testBit 7 := by
      simp [bitAt, byteBits]
    have h9 : bitAt (byteBits a ++ byteBits c ++ rest) 9 = c.testBit 6 := by
      simp [bitAt, byteBits]
    have hnot16 : ¬ ((byteBits a ++ byteBits c ++ rest).length < 16) := by
      rw [hlen]; omega
    have hlt32 : (byteBits a ++ byteBits c ++ rest).length < 32 := by
      rw [hlen]; omega
    simp only [Instr.tryParseRegisterMemoryMov, if_neg hnot16, h8, h9, hm,
      if_pos hlt32]
  · intro a c rest hm hrm hl
    have hlen : (byteBits a ++ byteBits c ++ rest).length = 16 + rest.length := by
      simp [byteBits]; omega
    have h8 : bitAt (byteBits a ++ byteBits c ++ rest) 8 = c.testBit 7 := by
      simp [bitAt, byteBits]
    have h9 : bitAt (byteBits a ++ byteBits c ++ rest) 9 = c.testBit 6 := by
      simp [bitAt, byteBits]
    have h13 : bitAt (byteBits a ++ byteBits c ++ rest) 13 = c.testBit 2 := by
      simp [bitAt, byteBits]
    have h14 : bitAt (byteBits a ++ byteBits c ++ rest) 14 = c.testBit 1 := by
      simp [bitAt, byteBits]
    have h15 : bitAt (byteBits a ++ byteBits c ++ rest) 15 = c.testBit 0 := by
      simp [bitAt, byteBits]
    have hnot16 : ¬ ((byteBits a ++ byteBits c ++ rest).length < 16) := by
      rw [hlen]; omega
    have hlt32 : (byteBits a ++ byteBits c ++ rest).length < 32 := by
      rw [hlen]; omega
    simp only [Instr.tryParseRegisterMemoryMov, if_neg hnot16, h8, h9, h13, h14,
      h15, hm, if_pos hrm, if_pos hlt32]
  · intro a rest hw h8le hl
    have hlen : (byteBits a ++ rest).length = 8 + rest.length := by
      simp [byteBits]; omega
    have h4 : bitAt (byteBits a ++ rest) 4 = a.testBit 3 := by
      simp [bitAt, byteBits]
    have hnot16 : ¬ ((byteBits a ++ rest).length < 16) := by
      rw [hlen]; omega
    have hlt24 : (byteBits a ++ rest).length < 24 := by
      rw [hlen]; omega
    simp only [Instr.tryParseImmediateRegisterMov, if_neg hnot16, h4, hw,
      if_true, eq_self_iff_true, if_pos hlt24]
  · intro a rest hcase
    have hlen : (byteBits a ++ rest).length = 8 + rest.length := by
      simp [byteBits]; omega
    have h6 : bitAt? (byteBits a ++ rest) 6 = some (a.testBit 1) := by
      simp [bitAt?, byteBits]
    have h7 : bitAt? (byteBits a ++ rest) 7 = some (a.testBit 0) := by
      simp [bitAt?, byteBits]
    unfold Instr.tryParseMemoryAccumMov
    simp only [Option.bind_eq_bind']
    rw [h6, Option.some_bind', h7, Option.some_bind']
    rcases hcase with ⟨hw, hl⟩ | ⟨hw, hl⟩
    · rw [hw, if_pos rfl]
      have hload : load16? (byteBits a ++ rest) 8 = none := by
        unfold load16?
        rw [if_neg (by rw [hlen]; omega)]
      rw [hload, Option.none_bind']
    · rw [hw, if_neg (by simp)]
      have hload : load8? (byteBits a ++ rest) 8 = none := by
        unfold load8?
        rw [if_neg (by rw [hlen]; omega)]
      rw [hload, Option.none_bind']

/-- Witness for C4 (amended): the empty window errors in the
register/memory form, a 16-bit Displace8 window errors asking for the
missing displacement byte, and a 16-bit wide memory-accumulator window
panics. -/
theorem C4_short_window_parse_error_witness :
    Instr.tryParseRegisterMemoryMov [] =
      Except.error ⟨"Incoming bits has less than 16 bits!"⟩
    ∧ Instr.tryParseRegisterMemoryMov (byteBits 0x89 ++ byteBits 0x42 ++ []) =
      Except.error ⟨"Incoming instruction has an 8 bit displacement, but the disp_lo byte was not provided. Requires at least 24 bits."⟩
    ∧ Instr.tryParseMemoryAccumMov (byteBits 0xA1 ++ byteBits 0x01) = none :=
  ⟨C4_short_window_parse_error.1 [] (by decide),
   C4_short_window_parse_error.2.2.1 0x89 0x42 [] (by decide) (by decide),
   C4_short_window_parse_error.2.2.2.2.2.2 0xA1 (byteBits 0x01)
     (Or.inl ⟨by decide, by decide⟩)⟩

/-- C5 (amended): an input byte whose leading bits match none of the four
MOV opcode patterns makes the decoder panic via `unimplemented!` (whose
message carries the raw bits) — a process abort modelled by `none`, not a
recoverable error value, and no offset is reported. -/
theorem C5_unsupported_opcode_panics (b0 b1 b2 b3 b4 b5 b6 : Bool)
    (rest : List Bool)
    (hp1 : (b0, b1, b2, b3, b4, b5) ≠ (true, false, false, false, true, false))
    (hp2 : (b0, b1, b2, b3) ≠ (true, false, true, true))
    (hp3 : (b0, b1, b2, b3, b4, b5, b6) ≠ (true, true, false, false, false, true, true))
    (hp4 : (b0, b1, b2, b3, b4, b5) ≠ (true, false, true, false, false, false)) :
    Instr.tryFrom (b0 :: b1 :: b2 :: b3 :: b4 :: b5 :: b6 :: rest) = none := by
  unfold Instr.tryFrom
  simp only [Option.bind_eq_bind', bitAt?, List.getElem?_cons_zero,
    List.getElem?_cons_succ, Option.some_bind']
  cases b0 <;> cases b1 <;> cases b2 <;> cases b3 <;> cases b4 <;> cases b5 <;>
    cases b6 <;> simp_all

/-- Witness for C5 (amended): the byte `0xFF` matches no MOV pattern, and
decoding the two-byte window panics. -/
theorem C5_unsupported_opcode_panics_witness :
    Instr.tryFrom (true :: true :: true :: true :: true :: true :: true ::
      bytesToBits [0xFF]) = none :=
  C5_unsupported_opcode_panics true true true true true true true
    (bytesToBits [0xFF]) (by decide) (by decide) (by decide) (by decide)

/-- A rendered line always begins with the mnemonic and a space, so it can
never equal the assembler directive `bits 16`. -/
theorem movLine_ne_directive (x y : String) :
    (("mov" ++ " " ++ x ++ ", " ++ y) : String) ≠ "bits 16" := by
  intro h
  have hd := congrArg String.data h
  simp only [String.data_append] at hd
  simp at hd

/-- Every successful rendering by `to_asm` of `src/main.rs` differs from the
`bits 16` directive line. -/
theorem mainToAsm_ne_directive (inst : Main.Instruction) (so : Bool) (l : String)
    (h : Main.Instruction.toAsm inst so = some l) : l ≠ "bits 16" := by
  cases inst with
  | RegisterMemoryMov d wide mode reg rm disp b =>
      unfold Main.Instruction.toAsm at h
      simp only [Option.bind_eq_bind'] at h
      by_cases hmode : mode = Mode.Register
      · rw [if_pos hmode, Option.some_bind'] at h
        simp only [Option.some.injEq, Main.Instruction.opcodeName] at h
        subst h
        apply movLine_ne_directive
      · rw [if_neg hmode] at h
        obtain ⟨ea, -, h⟩ := Option.bind_eq_some.mp h
        obtain ⟨ds, -, h⟩ := Option.bind_eq_some.mp h
        rw [Option.some_bind'] at h
        simp only [Option.some.injEq, Main.Instruction.opcodeName] at h
        subst h
        apply movLine_ne_directive
  | ImmediateRegisterMov wide reg data b =>
      unfold Main.Instruction.toAsm at h
      cases wide <;>
        simp only [Bool.false_eq_true, eq_self_iff_true, if_false, if_true,
          Option.some.injEq, Main.Instruction.opcodeName] at h <;>
        subst h <;> apply movLine_ne_directive

/-- Counterexample for C8: on the input `0x89 0xD8` the driver emits exactly
the single instruction line, with no preceding `bits 16` directive line. -/
theorem C8_no_directive_line_counterexample :
    Main.disassembleAux (bytesToBits [0x89, 0xD8]) false 0 17 = some ["mov ax, bx"]
    ∧ Main.disassemble (bytesToBits [0x89, 0xD8]) false = some "mov ax, bx"
    ∧ ("mov ax, bx" : String) ≠ "bits 16" := by
  refine ⟨by decide, by decide, by decide⟩

/-- C8 (amended): the output of the driver is an ordered sequence of lines
with exactly one line per decoded instruction — each line is the rendering
of some instruction — and there is no directive line: in particular no line
equals `bits 16`. -/
theorem C8_one_line_per_instruction (input : List Bool) (so : Bool)
    (ptr fuel : Nat) (lines : List String)
    (h : Main.disassembleAux input so ptr fuel = some lines) :
    ∀ l ∈ lines, (∃ inst, Main.Instruction.toAsm inst so = some l) ∧ l ≠ "bits 16" := by
  induction fuel generalizing ptr lines with
  | zero =>
      unfold Main.disassembleAux at h
      split at h
      · exact Option.noConfusion h
      · rw [Option.some.injEq] at h
        subst h
        intro l hl
        exact absurd hl (List.not_mem_nil l)
  | succ n ih =>
      unfold Main.disassembleAux at h
      split at h
      · split at h
        · exact Option.noConfusion h
        · split at h
          · split at h
            · exact Option.noConfusion h
            · rename_i d1 inst heqTf d2 line ha
              obtain ⟨rest, hrest, hlines⟩ := Option.map_eq_some'.mp h
              subst hlines
              intro l hl
              rcases List.mem_cons.mp hl with hEq | hMem
              · subst hEq
                exact ⟨⟨inst, ha⟩, mainToAsm_ne_directive inst so _ ha⟩
              · exact ih _ rest hrest l hMem
          · exact Option.noConfusion h
      · rw [Option.some.injEq] at h
        subst h
        intro l hl
        exact absurd hl (List.not_mem_nil l)

/-- Witness for C8 (amended): on the concrete two-byte input the single
output line is an instruction rendering and differs from `bits 16`. -/
theorem C8_one_line_per_instruction_witness :
    (∃ inst, Main.Instruction.toAsm inst false = some "mov ax, bx")
    ∧ ("mov ax, bx" : String) ≠ "bits 16" :=
  C8_one_line_per_instruction (bytesToBits [0x89, 0xD8]) false 0 17
    ["mov ax, bx"] (by decide) "mov ax, bx" (by decide)

/-- The window length the specification describes: the largest value of a
descending candidate sequence that does not exceed the bits remaining. -/
def largestWindowSpec (ws : List Nat) (r : Nat) : Option Nat :=
  ws.find? (fun w => decide (w ≤ r))

/-- Counterexample for C9: with 48 bits remaining the claimed sequence
{48, 40, 32, 24, 16} would select a 48-bit window, but the driver of
`src/main.rs` selects 32. -/
theorem C9_window_sequence_counterexample :
    Main.windowLength 48 = 32
    ∧ largestWindowSpec [48, 40, 32, 24, 16] 48 = some 48
    ∧ (32 : Nat) ≠ 48 := by
  refine ⟨by decide, by decide, by decide⟩

/-- C9 (amended): at every iteration the driver selects the largest value of
the descending sequence {32, 24, 16} that does not exceed the bits remaining
(16 whenever fewer than 16 bits remain), passes that window to the decoder,
and advances the bit offset by the decoded byte count times 8. -/
theorem C9_driver_step :
    (∀ r : Nat, 16 ≤ r →
      largestWindowSpec [32, 24, 16] r = some (Main.windowLength r))
    ∧ (∀ (input : List Bool) (so : Bool) (ptr fuel : Nat)
        (inst : Main.Instruction) (current : List Bool) (line : String),
        ptr < input.length →
        sliceB input ptr (Main.windowLength (input.length - ptr)) = some current →
        Main.tryFrom current = some (Except.ok inst) →
        Main.Instruction.toAsm inst so = some line →
        Main.disassembleAux input so ptr (fuel + 1) =
          Option.map (fun rest => line :: rest)
            (Main.disassembleAux input so (ptr + inst.bytes * 8) fuel)) := by
  constructor
  · intro r hr
    unfold Main.windowLength largestWindowSpec
    by_cases h32 : 32 ≤ r
    · rw [if_pos h32]
      simp [List.find?_cons, h32]
    · rw [if_neg h32]
      by_cases h24 : 24 ≤ r
      · rw [if_pos h24]
        simp [List.find?_cons, h32, h24]
      · rw [if_neg h24]
        simp [List.find?_cons, h32, h24, hr]
  · intro input so ptr fuel inst current line hlt hs ht ha
    unfold Main.disassembleAux
    simp only [if_pos hlt, hs, ht, ha]
    rw [Main.disassembleAux.eq_def]

/-- Witness for C9 (amended): with exactly 32 bits remaining the selected
window is 32, and one concrete driver iteration prepends the rendered line
and advances by 2 bytes. -/
theorem C9_driver_step_witness :
    largestWindowSpec [32, 24, 16] 32 = some (Main.windowLength 32)
    ∧ Main.disassembleAux (bytesToBits [0x89, 0xD8, 0x89, 0xD8]) false 0 2 =
        Option.map (fun rest => "mov ax, bx" :: rest)
          (Main.disassembleAux (bytesToBits [0x89, 0xD8, 0x89, 0xD8]) false 16 1) :=
  ⟨C9_driver_step.1 32 (by decide),
   C9_driver_step.2 (bytesToBits [0x89, 0xD8, 0x89, 0xD8]) false 0 1
     (Main.Instruction.RegisterMemoryMov false true Mode.Register Register.BX
       (false, false, false) none 2)
     (bytesToBits [0x89, 0xD8, 0x89, 0xD8]) "mov ax, bx"
     (by decide) (by decide) (by decide) (by decide)⟩

/-- Counterexample for C10: the window `0xC7 0xC0 0x01 0x00` decodes to an
immediate-to-register/memory MOV in RegisterDirect mode with disp = None,
and rendering it reaches the `disp.unwrap()` inside
`deserialize_displacement` (mode is not Memory, so the early return does not
fire) and panics. -/
theorem C10_render_panic_counterexample :
    Instr.tryFrom (bytesToBits [0xC7, 0xC0, 0x01, 0x00]) =
      some (Except.ok (Instr.Instruction.ImmediateRegisterMemoryMov true
        Mode.Register (false, false, false) none 1 4))
    ∧ Instr.Instruction.toAsm (Instr.Instruction.ImmediateRegisterMemoryMov true
        Mode.Register (false, false, false) none 1 4) = none := by
  refine ⟨by decide, by decide⟩

/-- The effective-address helper of `src/instruction.rs` only unwraps the
displacement in the direct-address case, so it cannot panic when a
displacement is present there. -/
theorem desEA_ne_none (rm : Bool × Bool × Bool) (m : Mode) (dsp : Option Nat)
    (h : m = Mode.Memory → rm = (true, true, false) → dsp ≠ none) :
    Instr.deserializeEffectiveAddress rm m dsp ≠ none := by
  rcases rm with ⟨r2, r1, r0⟩
  cases r2 <;> cases r1 <;> cases r0 <;>
    simp only [Instr.deserializeEffectiveAddress] <;> try simp
  split
  · rename_i hm
    rcases dsp with _ | v
    · exact absurd rfl (h hm rfl)
    · simp
  · simp

/-- The displacement helper of `src/instruction.rs` returns early for Memory
mode and otherwise unwraps, so it cannot panic when a displacement is
present outside Memory mode. -/
theorem desDisp_ne_none (m : Mode) (dsp : Option Nat) (w : Bool)
    (h : m ≠ Mode.Memory → dsp ≠ none) :
    Instr.deserializeDisplacement m dsp w ≠ none := by
  unfold Instr.deserializeDisplacement
  split
  · simp
  · rename_i hm
    rcases dsp with _ | v
    · exact absurd rfl (h hm)
    · simp only []
      split
      · simp
      · split <;> simp

/-- Rendering a register/memory MOV whose displacement respects the decoder
invariant cannot panic. -/
theorem instrToAsm_regMem_ne_none (d w : Bool) (m : Mode) (reg : Register)
    (rm : Bool × Bool × Bool) (dsp : Option Nat) (b : Nat)
    (hd : dsp = none → m = Mode.Register ∨ (m = Mode.Memory ∧ rm ≠ (true, true, false))) :
    Instr.Instruction.toAsm
      (Instr.Instruction.RegisterMemoryMov d w m reg rm dsp b) ≠ none := by
  unfold Instr.Instruction.toAsm
  simp only [Option.bind_eq_bind']
  by_cases hm : m = Mode.Register
  · rw [if_pos hm, Option.some_bind']
    simp
  · rw [if_neg hm]
    rcases hEA : Instr.deserializeEffectiveAddress rm m dsp with _ | ea
    · refine absurd hEA (desEA_ne_none rm m dsp ?_)
      intro hmem h110 hnone
      rcases hd hnone with h1 | ⟨-, h3⟩
      · exact hm h1
      · exact h3 h110
    · rw [Option.some_bind']
      rcases hDS : Instr.deserializeDisplacement m dsp w with _ | ds
      · refine absurd hDS (desDisp_ne_none m dsp w ?_)
        intro hmem hnone
        rcases hd hnone with h1 | ⟨h2, -⟩
        · exact hm h1
        · exact hmem h2
      · rw [Option.some_bind', Option.some_bind']
        simp

/-- Rendering an immediate-to-register/memory MOV whose displacement
respects the decoder invariant panics exactly in RegisterDirect mode, where
the displacement is absent yet `deserialize_displacement` unwraps it. -/
theorem instrToAsm_immRegMem_none_iff (w : Bool) (m : Mode)
    (rm : Bool × Bool × Bool) (dsp : Option Nat) (data b : Nat)
    (hd : dsp = none ↔ (m = Mode.Register ∨ (m = Mode.Memory ∧ rm ≠ (true, true, false)))) :
    (Instr.Instruction.toAsm
      (Instr.Instruction.ImmediateRegisterMemoryMov w m rm dsp data b) = none)
    ↔ m = Mode.Register := by
  by_cases hm : m = Mode.Register
  · subst hm
    have hdn : dsp = none := hd.mpr (Or.inl rfl)
    subst hdn
    unfold Instr.Instruction.toAsm
    simp only [Option.bind_eq_bind']
    rcases hEA : Instr.deserializeEffectiveAddress rm Mode.Register none with _ | ea
    · simp
    · rw [Option.some_bind']
      have hDS : Instr.deserializeDisplacement Mode.Register none w = none := by
        unfold Instr.deserializeDisplacement
        simp
      rw [hDS]
      simp
  · have hne : Instr.Instruction.toAsm
        (Instr.Instruction.ImmediateRegisterMemoryMov w m rm dsp data b) ≠ none := by
      unfold Instr.Instruction.toAsm
      simp only [Option.bind_eq_bind']
      rcases hEA : Instr.deserializeEffectiveAddress rm m dsp with _ | ea
      · refine absurd hEA (desEA_ne_none rm m dsp ?_)
        intro hmem h110 hnone
        rcases hd.mp hnone with h1 | ⟨-, h3⟩
        · exact hm h1
        · exact h3 h110
      · rw [Option.some_bind']
        rcases hDS : Instr.deserializeDisplacement m dsp w with _ | ds
        · refine absurd hDS (desDisp_ne_none m dsp w ?_)
          intro hmem hnone
          rcases hd.mp hnone with h1 | ⟨h2, -⟩
          · exact hm h1
          · exact hmem h2
        · rw [Option.some_bind']
          simp
    simp [hne, hm]

/-- Characterisation of the stored displacement of a successful
register/memory decode: it is absent exactly in RegisterDirect mode and in
Memory mode away from the direct-address case. -/
theorem tryParseRegMemMov_ok_disp (bits : List Bool) (d w : Bool) (m : Mode)
    (reg : Register) (rm : Bool × Bool × Bool) (dsp : Option Nat) (b : Nat)
    (h : Instr.tryParseRegisterMemoryMov bits =
      Except.ok (Instr.Instruction.RegisterMemoryMov d w m reg rm dsp b)) :
    dsp = none ↔ (m = Mode.Register ∨ (m = Mode.Memory ∧ rm ≠ (true, true, false))) := by
  by_cases h16 : bits.length < 16
  · simp only [Instr.tryParseRegisterMemoryMov, if_pos h16] at h
    exact absurd h (by simp)
  · rcases hmode : Mode.fromBits (bitAt bits 8) (bitAt bits 9) with _ | _ | _ | _
    · by_cases hrm : (bitAt bits 13, bitAt bits 14, bitAt bits 15) = (true, true, false)
      · by_cases h32 : bits.length < 32
        · simp only [Instr.tryParseRegisterMemoryMov, if_neg h16, hmode, if_pos hrm,
            if_pos h32] at h
          exact absurd h (by simp)
        · simp only [Instr.tryParseRegisterMemoryMov, if_neg h16, hmode, if_pos hrm,
            if_neg h32] at h
          rw [Except.ok.injEq, Instr.Instruction.RegisterMemoryMov.injEq] at h
          obtain ⟨-, -, hm, -, hrm2, hdsp, -⟩ := h
          subst hm; subst hrm2; subst hdsp
          simp [hrm]
      · simp only [Instr.tryParseRegisterMemoryMov, if_neg h16, hmode, if_neg hrm] at h
        rw [Except.ok.injEq, Instr.Instruction.RegisterMemoryMov.injEq] at h
        obtain ⟨-, -, hm, -, hrm2, hdsp, -⟩ := h
        subst hm; subst hrm2; subst hdsp
        simp [hrm]
    · by_cases h24 : bits.length < 24
      · simp only [Instr.tryParseRegisterMemoryMov, if_neg h16, hmode, if_pos h24] at h
        exact absurd h (by simp)
      · simp only [Instr.tryParseRegisterMemoryMov, if_neg h16, hmode, if_neg h24] at h
        rw [Except.ok.injEq, Instr.Instruction.RegisterMemoryMov.injEq] at h
        obtain ⟨-, -, hm, -, hrm2, hdsp, -⟩ := h
        subst hm; subst hrm2; subst hdsp
        simp
    · by_cases h32 : bits.length < 32
      · simp only [Instr.tryParseRegisterMemoryMov, if_neg h16, hmode, if_pos h32] at h
        exact absurd h (by simp)
      · simp only [Instr.tryParseRegisterMemoryMov, if_neg h16, hmode, if_neg h32] at h
        rw [Except.ok.injEq, Instr.Instruction.RegisterMemoryMov.injEq] at h
        obtain ⟨-, -, hm, -, hrm2, hdsp, -⟩ := h
        subst hm; subst hrm2; subst hdsp
        simp
    · simp only [Instr.tryParseRegisterMemoryMov, if_neg h16, hmode] at h
      rw [Except.ok.injEq, Instr.Instruction.RegisterMemoryMov.injEq] at h
      obtain ⟨-, -, hm, -, hrm2, hdsp, -⟩ := h
      subst hm; subst hrm2; subst hdsp
      simp

/-- C10 (amended): for both displacement-carrying MOV forms the decoder
stores a displacement exactly when the mode is Displace8 or Displace16, or
Memory with rm = 110; consequently rendering a decoder-produced
register/memory MOV never panics (neither unwrap fires on None), while
rendering a decoder-produced immediate-to-register/memory MOV panics exactly
when its mode is RegisterDirect, where `deserialize_displacement` unwraps
the absent displacement. -/
theorem C10_disp_invariant_and_render_panics :
    (∀ (bits : List Bool) (d w : Bool) (m : Mode) (reg : Register)
      (rm : Bool × Bool × Bool) (dsp : Option Nat) (b : Nat),
      Instr.tryParseRegisterMemoryMov bits =
        Except.ok (Instr.Instruction.RegisterMemoryMov d w m reg rm dsp b) →
      ((dsp ≠ none) ↔ (m = Mode.Displace8Bits ∨ m = Mode.Displace16Bits ∨
        (m = Mode.Memory ∧ rm = (true, true, false))))
      ∧ Instr.Instruction.toAsm
          (Instr.Instruction.RegisterMemoryMov d w m reg rm dsp b) ≠ none)
    ∧ (∀ (bits : List Bool) (w : Bool) (m : Mode) (rm : Bool × Bool × Bool)
      (dsp : Option Nat) (data b : Nat),
      Instr.tryParseImmediateRegisterMemoryMov bits =
        some (Except.ok (Instr.Instruction.ImmediateRegisterMemoryMov w m rm dsp data b)) →
      ((dsp ≠ none) ↔ (m = Mode.Displace8Bits ∨ m = Mode.Displace16Bits ∨
        (m = Mode.Memory ∧ rm = (true, true, false))))
      ∧ (Instr.Instruction.toAsm
          (Instr.Instruction.ImmediateRegisterMemoryMov w m rm dsp data b) = none
          ↔ m = Mode.Register)) := by
  constructor
  · intro bits d w m reg rm dsp b h
    have hiff := tryParseRegMemMov_ok_disp bits d w m reg rm dsp b h
    constructor
    · cases m <;> by_cases hrm : rm = (true, true, false) <;> simp_all
    · exact instrToAsm_regMem_ne_none d w m reg rm dsp b (fun hn => hiff.mp hn)
  · intro bits w m rm dsp data b h
    have hiff := (tryParseImmRegMemMov_ok_shape bits w m rm dsp data b h).1
    constructor
    · cases m <;> by_cases hrm : rm = (true, true, false) <;> simp_all
    · exact instrToAsm_immRegMem_none_iff w m rm dsp data b hiff

/-- Witness for C10 (amended): instantiation at the concrete RegisterDirect
window `0x89 0xD8` — no displacement is stored and rendering succeeds. -/
theorem C10_disp_invariant_and_render_panics_witness :
    (((none : Option Nat) ≠ none) ↔ (Mode.Register = Mode.Displace8Bits ∨
      Mode.Register = Mode.Displace16Bits ∨
      (Mode.Register = Mode.Memory ∧ ((false, false, false) : Bool × Bool × Bool) = (true, true, false))))
    ∧ Instr.Instruction.toAsm (Instr.Instruction.RegisterMemoryMov false true
        Mode.Register Register.BX (false, false, false) none 2) ≠ none :=
  C10_disp_invariant_and_render_panics.1 (bytesToBits [0x89, 0xD8]) false true
    Mode.Register Register.BX (false, false, false) none 2 (by decide)
